import Mathlib

/-!
Shallow embedding of the `preloadcheck` static analyzer (the type-aware
AST-walking version): the model-association resolver (`run`, first and
second pass), the receiver comparison (`sameReceiver`), the two
association heuristics (`findModelInSameChain`, `findClosestModel`) and
the path validator (`checkPreloadPath`).

The Go values involved are embedded as follows:
- `go/types.Type` becomes `GoType` (named types carry their underlying
  type directly, mirroring `Named.Underlying()`);
- `go/ast` expressions become `Expr`; node source positions follow the
  `go/ast` position rules (`CallExpr.Pos() = Fun.Pos()`,
  `SelectorExpr.Pos() = X.Pos()`), so only atoms carry a position;
- `pass.TypesInfo.ObjectOf(ident).Type()` becomes a name-indexed
  `Oracle`;
- Go's `token.Pos` is a signed integer type, so the sentinel
  `^token.Pos(0)` used by `findClosestModel` is the integer -1; the
  distance comparison is therefore carried out in `Int`;
- Go map iteration over `modelTypes` is embedded as iteration over an
  association list in insertion order (the Go order is unspecified; the
  theorems below either hold for every order or concern situations in
  which at most one entry can be selected);
- `run` builds a `callChains` map via `buildCallChain`, but
  `findModelTypeForPreload` never reads it, so it has no influence on
  the analyzer's output and is not embedded.
-/

/-- Embedding of the fragment of `go/types.Type` the analyzer inspects:
basic types, named types (carrying their underlying type), pointers,
slices and struct types (an ordered field list of name/type pairs). -/
inductive GoType where
  | basic (name : String)
  | named (name : String) (underlying : GoType)
  | pointer (elem : GoType)
  | slice (elem : GoType)
  | structT (fields : List (String × GoType))

mutual
/-- Embedding of the fragment of `go/ast.Expr` the analyzer inspects:
identifiers, selector expressions, call expressions, address-of unary
expressions, string basic literals (holding the source token, quotes
included) and a catch-all for every other expression form. Atoms carry
their source position. -/
inductive Expr where
  | ident (pos : Nat) (name : String)
  | sel (x : Expr) (selName : String)
  | call (fn : Expr) (args : ExprList)
  | unaryAnd (opPos : Nat) (x : Expr)
  | litStr (valuePos : Nat) (value : String)
  | litOther (valuePos : Nat)
/-- Argument lists of call expressions. -/
inductive ExprList where
  | nil
  | cons (head : Expr) (tail : ExprList)
end

/-- `go/ast` position rules: `Ident.Pos() = NamePos`,
`SelectorExpr.Pos() = X.Pos()`, `CallExpr.Pos() = Fun.Pos()`,
`UnaryExpr.Pos() = OpPos`, `BasicLit.Pos() = ValuePos`. -/
def Expr.pos : Expr → Nat
  | .ident p _ => p
  | .sel x _ => x.pos
  | .call fn _ => fn.pos
  | .unaryAnd p _ => p
  | .litStr p _ => p
  | .litOther p => p

mutual
/-- The `ast.Inspect` traversal restricted to what the two passes of
`run` consume: every `CallExpr` beneath a node, in preorder. -/
def Expr.allCalls : Expr → List Expr
  | .ident _ _ => []
  | .sel x _ => x.allCalls
  | .call fn args => .call fn args :: (fn.allCalls ++ args.allCalls)
  | .unaryAnd _ x => x.allCalls
  | .litStr _ _ => []
  | .litOther _ => []
/-- Calls beneath each expression of an argument list, in order. -/
def ExprList.allCalls : ExprList → List Expr
  | .nil => []
  | .cons e es => e.allCalls ++ es.allCalls
end

/-- A source file, reduced to the forest of its expression statements
(the only nodes in which the analyzer finds call expressions). -/
def fileCalls (file : List Expr) : List Expr :=
  (file.map Expr.allCalls).flatten

/-- The Type Oracle: `pass.TypesInfo.ObjectOf(ident).Type()`, indexed by
the identifier's name. -/
def Oracle := List (String × GoType)

/-- First match wins, `none` when the object cannot be resolved. -/
def lookupOracle : List (String × GoType) → String → Option GoType
  | [], _ => none
  | (n, t) :: rest, name => if n = name then some t else lookupOracle rest name

/-- `if slice, ok := modelType.(*types.Slice); ok { modelType = slice.Elem() }`:
one slice indirection is replaced by its element type; every other type
(pointers included) is kept as is. -/
def elemIfSlice : GoType → GoType
  | .slice e => e
  | t => t

/-- The first-pass handling of `call.Args[0]` in `run`: an address-of of
an identifier or a plain identifier is resolved through the oracle and
its type is unwrapped by `elemIfSlice`; every other argument shape
yields no model type. -/
def findArgModelType (oracle : List (String × GoType)) (arg : Expr) : Option GoType :=
  match arg with
  | .unaryAnd _ (.ident _ name) =>
    match lookupOracle oracle name with
    | some t => some (elemIfSlice t)
    | none => none
  | .ident _ name =>
    match lookupOracle oracle name with
    | some t => some (elemIfSlice t)
    | none => none
  | _ => none

/-- The first-pass filter of `run`: a call whose `Fun` is a selector
named `Find` with at least one argument is recorded together with the
model type extracted from its first argument. -/
def modelTypeOfCall (oracle : List (String × GoType)) (e : Expr) : Option (Expr × GoType) :=
  match e with
  | .call (.sel x "Find") (.cons arg rest) =>
    match findArgModelType oracle arg with
    | some t => some (.call (.sel x "Find") (.cons arg rest), t)
    | none => none
  | _ => none

/-- The whole first pass of `run`: the `modelTypes` map, as an
association list in traversal order. -/
def collectModelTypes (oracle : List (String × GoType)) (file : List Expr) : List (Expr × GoType) :=
  (fileCalls file).filterMap (modelTypeOfCall oracle)

/-- `sameReceiver`: two identifiers compare by name, two selector
expressions compare recursively on their operand and by selected name,
every other combination is `false`. -/
def sameReceiver : Expr → Expr → Bool
  | .ident _ n1, .ident _ n2 => n1 = n2
  | .sel x1 n1, .sel x2 n2 => sameReceiver x1 x2 && n1 = n2
  | _, _ => false

/-- The per-entry test of `findModelInSameChain`: the recorded call must
lie strictly after the preload call, be a call on a selector whose
operand is the same receiver, and lie within 1000 position units. -/
def sameChainStep (preloadPos : Nat) (receiver : Expr) (entry : Expr × GoType) : Option GoType :=
  if entry.1.pos > preloadPos then
    match entry.1 with
    | .call (.sel fx _) _ =>
      if sameReceiver receiver fx then
        if entry.1.pos - preloadPos < 1000 then some entry.2 else none
      else none
    | _ => none
  else none

/-- `findModelInSameChain`: for a preload call on a selector, the first
recorded Find call passing `sameChainStep`; `none` for any other call
shape. -/
def findModelInSameChain (preloadCall : Expr) (modelTypes : List (Expr × GoType)) : Option GoType :=
  match preloadCall with
  | .call (.sel receiver _) _ =>
    modelTypes.findSome? (sameChainStep preloadCall.pos receiver)
  | _ => none

/-- The accumulator loop of `findClosestModel`. `bestDist` starts at
`^token.Pos(0)`, the bitwise complement of zero on the signed
`token.Pos` type, i.e. -1; a candidate is adopted only when its distance
is below 20 and below the current best. -/
def findClosestModelAux (preloadPos : Nat) :
    List (Expr × GoType) → Option GoType → Int → Option GoType
  | [], best, _ => best
  | (fc, t) :: rest, best, bestDist =>
    if fc.pos > preloadPos then
      let distance : Int := (fc.pos : Int) - (preloadPos : Int)
      if distance < 20 ∧ distance < bestDist then
        findClosestModelAux preloadPos rest (some t) distance
      else
        findClosestModelAux preloadPos rest best bestDist
    else
      findClosestModelAux preloadPos rest best bestDist

/-- `findClosestModel`, the fallback of `findModelTypeForPreload`. -/
def findClosestModel (preloadCall : Expr) (modelTypes : List (Expr × GoType)) : Option GoType :=
  findClosestModelAux preloadCall.pos modelTypes none (-1)

/-- `findModelTypeForPreload`: same-chain match first, closest-model
fallback second. -/
def findModelTypeForPreload (preloadCall : Expr) (modelTypes : List (Expr × GoType)) : Option GoType :=
  match findModelInSameChain preloadCall modelTypes with
  | some t => some t
  | none => findClosestModel preloadCall modelTypes

/-- `strings.Split(s, ".")` on character lists: `acc` holds the current
segment reversed. Splitting the empty string yields one empty segment. -/
def splitDotAux : List Char → List Char → List String
  | [], acc => [String.mk acc.reverse]
  | c :: rest, acc =>
    if c = '.' then String.mk acc.reverse :: splitDotAux rest []
    else splitDotAux rest (c :: acc)

/-- `strings.Split(s, ".")`. -/
def splitDot (s : String) : List String :=
  splitDotAux s.data []

/-- Drop every leading `"` character. -/
def dropQuotes : List Char → List Char
  | [] => []
  | c :: rest => if c = '"' then dropQuotes rest else c :: rest

/-- `strings.Trim(s, "\"")`: every leading and trailing `"` character is
removed. -/
def trimQuotes (s : String) : String :=
  String.mk ((dropQuotes ((dropQuotes s.data).reverse)).reverse)

/-- `strings.Join(parts, ".")`. -/
def joinDot : List String → String
  | [] => ""
  | [s] => s
  | s :: rest => s ++ "." ++ joinDot rest

/-- The linear scan over `structType.Field(j)` in `checkPreloadPath`:
first field whose name equals the segment exactly, case-sensitively. -/
def lookupField : List (String × GoType) → String → Option GoType
  | [], _ => none
  | (n, t) :: rest, part => if n = part then some t else lookupField rest part

/-- `if ptr, ok := fieldType.(*types.Pointer); ok { fieldType = ptr.Elem() }`:
one pointer indirection is removed; everything else is kept. -/
def unwrapPointer : GoType → GoType
  | .pointer e => e
  | t => t

/-- The segment loop of `checkPreloadPath`: `structName` and `fields`
are the current named struct (`named` / `structType` in the source),
`seen` the segments already consumed (so that `seen ++ [part]` is
`parts[:i+1]`). -/
def walkPath (structName : String) (fields : List (String × GoType)) (seen : List String) :
    List String → String
  | [] => ""
  | part :: rest =>
    match lookupField fields part with
    | none => joinDot (seen ++ [part]) ++ " not found in " ++ structName
    | some ft =>
      match rest with
      | [] => ""
      | _ :: _ =>
        match unwrapPointer ft with
        | .named n u =>
          match u with
          | .structT fs => walkPath n fs (seen ++ [part]) rest
          | _ => joinDot (seen ++ [part]) ++ " is not a struct"
        | _ => joinDot (seen ++ [part]) ++ " is not a named struct"

/-- `checkPreloadPath`: the argument type must be a named type whose
underlying type is a struct, then the segment loop runs; the empty
failure string means success. -/
def checkPreloadPath (t : GoType) (parts : List String) : String :=
  match t with
  | .named n u =>
    match u with
    | .structT fs => walkPath n fs [] parts
    | _ => n ++ " is not a struct"
  | _ => "not a named type"

/-- A reported diagnostic: `pass.Reportf(call.Pos(), ...)`. -/
structure Diagnostic where
  pos : Nat
  msg : String
deriving DecidableEq, Repr

/-- The second-pass body of `run` for one call expression: a call on a
selector named `Preload` whose first argument is a string basic literal
has its literal trimmed of quotes and split on dots; if a model type is
associated and the path walk fails, one diagnostic is produced at the
call's position; in every other case nothing is produced. -/
def processPreloadCall (modelTypes : List (Expr × GoType)) (e : Expr) : Option Diagnostic :=
  match e with
  | .call (.sel x "Preload") (.cons (.litStr lp v) rest) =>
    let parts := splitDot (trimQuotes v)
    match findModelTypeForPreload (.call (.sel x "Preload") (.cons (.litStr lp v) rest)) modelTypes with
    | none => none
    | some t =>
      let err := checkPreloadPath t parts
      if err = "" then none
      else some ⟨(Expr.call (.sel x "Preload") (.cons (.litStr lp v) rest)).pos, "invalid preload: " ++ err⟩
  | .call (.sel _ "Preload") _ => none
  | _ => none

/-- The whole of `run`: first pass collects the model types, second pass
maps every call through `processPreloadCall` in traversal order. -/
def runAnalyzer (oracle : List (String × GoType)) (file : List Expr) : List Diagnostic :=
  (fileCalls file).filterMap (processPreloadCall (collectModelTypes oracle file))

/-! ### The concrete model-type graph of the testdata scenarios -/

/-- `type Address struct { City string }` -/
def AddressTy : GoType := .named "Address" (.structT [("City", .basic "string")])

/-- `type Profile struct { Address Address }` -/
def ProfileTy : GoType := .named "Profile" (.structT [("Address", AddressTy)])

/-- `type User struct { Profile Profile }` -/
def UserTy : GoType := .named "User" (.structT [("Profile", ProfileTy)])

/-- `type Order struct { User User }` -/
def OrderTy : GoType := .named "Order" (.structT [("User", UserTy)])

example : checkPreloadPath OrderTy ["User", "Profile", "Address"] = "" := rfl

example : checkPreloadPath OrderTy ["User", "Profil", "Address"] =
    "User.Profil not found in User" := rfl

example : splitDot (trimQuotes "\"User.Profile.Address\"") = ["User", "Profile", "Address"] := rfl

/-! ### Concrete call-site scenarios

The scenario files below model the shape `db.Preload("...")` followed by
`db.Find(&orders)` as two expression statements sharing the receiver
identifier `db`: this is the shape in which the same-chain rule fires
(the receiver of the `Find` link of a single fluent chain is a call
expression, which `sameReceiver` never matches, and in a single chained
expression both calls even share one source position). -/

/-- `db.Preload("User.Profile.Address")` at position 10. -/
def preloadS1 : Expr :=
  .call (.sel (.ident 10 "db") "Preload") (.cons (.litStr 21 "\"User.Profile.Address\"") .nil)

/-- `db.Find(&orders)` at position 60. -/
def findS1 : Expr :=
  .call (.sel (.ident 60 "db") "Find") (.cons (.unaryAnd 68 (.ident 69 "orders")) .nil)

/-- `var orders []Order` -/
def oracleS : List (String × GoType) := [("orders", .slice OrderTy)]

/-- Scenario 1: a well-typed preload path. -/
def fileS1 : List Expr := [preloadS1, findS1]

/-- `db.Preload("User.Profil.Address")` at position 10 (typo scenario). -/
def preloadS2 : Expr :=
  .call (.sel (.ident 10 "db") "Preload") (.cons (.litStr 21 "\"User.Profil.Address\"") .nil)

/-- Scenario 2: a mistyped preload path. -/
def fileS2 : List Expr := [preloadS2, findS1]

/-- C1: for the testdata type graph, `Preload("User.Profile.Address")`
followed by `Find(&orders)` with `orders : []Order` produces no
diagnostic; the resolver associates the preload call with `Order` (the
slice's element type) and the validator accepts every segment. -/
theorem C1_valid_nested_path :
    runAnalyzer oracleS fileS1 = [] ∧
    findModelTypeForPreload preloadS1 (collectModelTypes oracleS fileS1) = some OrderTy ∧
    checkPreloadPath OrderTy ["User", "Profile", "Address"] = "" :=
  ⟨rfl, rfl, rfl⟩

/-- C2: the validator scans field lists for an exact, case-sensitive
name match, and at the first absent segment it fails with the dot-joined
prefix up to that segment, `" not found in "`, and the current struct
type's name; concretely, `Preload("User.Profil.Address")` against
`Order` yields the diagnostic
`invalid preload: User.Profil not found in User`. -/
theorem C2_first_missing_segment :
    (∀ structName fields seen part rest,
      lookupField fields part = none →
      walkPath structName fields seen (part :: rest) =
        joinDot (seen ++ [part]) ++ " not found in " ++ structName)
    ∧ runAnalyzer oracleS fileS2 =
        [⟨10, "invalid preload: User.Profil not found in User"⟩] := by
  refine ⟨?_, rfl⟩
  intro structName fields seen part rest h
  simp [walkPath, h]

/-- Witness for C2 at the typo scenario's failing segment. -/
theorem C2_first_missing_segment_witness :
    lookupField [("Profile", ProfileTy)] "Profil" = none ∧
    walkPath "User" [("Profile", ProfileTy)] ["User"] ["Profil", "Address"] =
      joinDot (["User"] ++ ["Profil"]) ++ " not found in " ++ "User" :=
  ⟨rfl, C2_first_missing_segment.1 "User" [("Profile", ProfileTy)] ["User"] "Profil" ["Address"] rfl⟩

/-- C9: the final path segment is exempt from the struct requirement:
whenever the last segment names a field of the struct reached at that
point, the walk succeeds whatever the field's type (primitive, pointer,
slice, ...). -/
theorem C9_last_segment_unchecked :
    (∀ structName fields seen part ft,
      lookupField fields part = some ft →
      walkPath structName fields seen [part] = "")
    ∧ (∀ n fs part ft,
      lookupField fs part = some ft →
      checkPreloadPath (.named n (.structT fs)) [part] = "") := by
  constructor
  · intro structName fields seen part ft h
    simp [walkPath, h]
  · intro n fs part ft h
    simp [checkPreloadPath, walkPath, h]

/-- Witness for C9: the final segment `City` has the primitive type
`string` and is still accepted. -/
theorem C9_last_segment_unchecked_witness :
    lookupField [("City", .basic "string")] "City" = some (.basic "string") ∧
    checkPreloadPath AddressTy ["City"] = "" :=
  ⟨rfl, C9_last_segment_unchecked.2 "Address" [("City", .basic "string")] "City"
    (.basic "string") rfl⟩

/-- C10: a `Preload` call with no arguments, or whose first argument is
not a string basic literal (another literal kind, an identifier, a
selector, a call, an address-of), is skipped before any association or
path walk: no diagnostic is ever produced for it. -/
theorem C10_nonliteral_skipped :
    ∀ modelTypes rcv rest,
      processPreloadCall modelTypes (.call (.sel rcv "Preload") .nil) = none ∧
      (∀ p, processPreloadCall modelTypes
        (.call (.sel rcv "Preload") (.cons (.litOther p) rest)) = none) ∧
      (∀ p n, processPreloadCall modelTypes
        (.call (.sel rcv "Preload") (.cons (.ident p n) rest)) = none) ∧
      (∀ x n, processPreloadCall modelTypes
        (.call (.sel rcv "Preload") (.cons (.sel x n) rest)) = none) ∧
      (∀ f fargs, processPreloadCall modelTypes
        (.call (.sel rcv "Preload") (.cons (.call f fargs) rest)) = none) ∧
      (∀ p x, processPreloadCall modelTypes
        (.call (.sel rcv "Preload") (.cons (.unaryAnd p x) rest)) = none) := by
  intro modelTypes rcv rest
  refine ⟨rfl, fun p => rfl, fun p n => rfl, fun x n => rfl, fun f fargs => rfl, fun p x => rfl⟩

/-- The segment splitter always yields at least one segment. -/
theorem splitDotAux_ne_nil : ∀ (l : List Char) (acc : List Char), splitDotAux l acc ≠ [] := by
  intro l
  induction l with
  | nil => intro acc; simp [splitDotAux]
  | cons c rest ih =>
    intro acc
    by_cases hc : c = '.'
    · simp [splitDotAux, hc]
    · simp only [splitDotAux, if_neg hc]
      exact ih (c :: acc)

/-- C6 counterexample: contrary to the claim, the validator applied to
the empty segment sequence reports success (the empty failure string),
for `Order` as for any named struct type. -/
theorem C6_counterexample : checkPreloadPath OrderTy [] = "" := rfl

/-- C6 amended: `checkPreloadPath` on the empty segment list succeeds
for every named struct type; the analyzer however never passes an empty
list, because splitting any path string on `.` yields at least one
segment — the empty literal yields the single empty segment, which
fails whenever the struct has no empty-named field. -/
theorem C6_amended_empty_path :
    (∀ n fs, checkPreloadPath (.named n (.structT fs)) [] = "")
    ∧ (∀ s, splitDot s ≠ [])
    ∧ (∀ n fs, lookupField fs "" = none →
        checkPreloadPath (.named n (.structT fs)) (splitDot "") = " not found in " ++ n) := by
  refine ⟨fun n fs => rfl, fun s => splitDotAux_ne_nil s.data [], ?_⟩
  intro n fs h
  show walkPath n fs [] [""] = " not found in " ++ n
  simp [walkPath, h, joinDot]

/-- Witness for C6 amended: the empty literal against `Order`. -/
theorem C6_amended_empty_path_witness :
    lookupField [("User", UserTy)] "" = none ∧
    checkPreloadPath (.named "Order" (.structT [("User", UserTy)])) (splitDot "") =
      " not found in " ++ "Order" :=
  ⟨rfl, C6_amended_empty_path.2.2 "Order" [("User", UserTy)] rfl⟩

/-- `var optr *Order`: a pointer-typed destination variable. -/
def oracleP : List (String × GoType) := [("optr", .pointer OrderTy)]

/-- C7 counterexample: contrary to the claim, a destination variable of
pointer type records the pointer type itself, not the pointed-to model
type — the first pass unwraps only slices. -/
theorem C7_counterexample :
    findArgModelType oracleP (.ident 5 "optr") = some (.pointer OrderTy) ∧
    GoType.pointer OrderTy ≠ OrderTy := by
  refine ⟨rfl, ?_⟩
  intro h
  rw [OrderTy] at h
  exact GoType.noConfusion h

/-- C7 amended: the recorded model type is the variable's static type
with one slice wrapper replaced by its element type; a pointer wrapper
is kept as is. Concretely, `Find(&orders)` with `orders : []Order`
records `Order` keyed by the call node. -/
theorem C7_amended_recorded_type :
    (∀ oracle p q name t, lookupOracle oracle name = some t →
      findArgModelType oracle (.ident p name) = some (elemIfSlice t) ∧
      findArgModelType oracle (.unaryAnd q (.ident p name)) = some (elemIfSlice t))
    ∧ (∀ e, elemIfSlice (.slice e) = e)
    ∧ (∀ e, elemIfSlice (.pointer e) = .pointer e)
    ∧ collectModelTypes oracleS fileS1 = [(findS1, OrderTy)] := by
  refine ⟨?_, fun e => rfl, fun e => rfl, rfl⟩
  intro oracle p q name t h
  constructor
  · simp [findArgModelType, h]
  · simp [findArgModelType, h]

/-- Witness for C7 amended at the pointer-typed destination. -/
theorem C7_amended_recorded_type_witness :
    lookupOracle oracleP "optr" = some (.pointer OrderTy) ∧
    findArgModelType oracleP (.ident 5 "optr") = some (elemIfSlice (.pointer OrderTy)) :=
  ⟨rfl, (C7_amended_recorded_type.1 oracleP 5 7 "optr" (.pointer OrderTy) rfl).1⟩

/-- `type Team struct { Members []Profile }` -/
def TeamSliceTy : GoType := .named "Team" (.structT [("Members", .slice ProfileTy)])

/-- `type Team struct { Members Profile }` -/
def TeamPlainTy : GoType := .named "Team" (.structT [("Members", ProfileTy)])

/-- C4 counterexample: contrary to the claim, slice wrapping is not
transparent — at a non-final segment a field typed `[]Profile` makes
the walk fail with an `is not a named struct` failure, while the same
field typed plain `Profile` lets it succeed. -/
theorem C4_counterexample :
    checkPreloadPath TeamPlainTy ["Members", "Address"] = "" ∧
    checkPreloadPath TeamSliceTy ["Members", "Address"] = "Members is not a named struct" ∧
    checkPreloadPath TeamSliceTy ["Members", "Address"] ≠
      checkPreloadPath TeamPlainTy ["Members", "Address"] :=
  ⟨rfl, rfl, by decide⟩

/-- Inserting a field in the middle of a list is found exactly when the
query names it and no earlier field shadows it. -/
theorem lookupField_mid (fsA fsB : List (String × GoType)) (f : String) (x : GoType)
    (p : String) (hf : f ∉ fsA.map Prod.fst) :
    lookupField (fsA ++ (f, x) :: fsB) p =
      if p = f then some x else lookupField (fsA ++ fsB) p := by
  induction fsA with
  | nil =>
    simp only [List.nil_append]
    by_cases hp : p = f
    · subst hp
      simp [lookupField]
    · have hfp : ¬(f = p) := fun h => hp h.symm
      simp [lookupField, hfp, hp]
  | cons hd rest ih =>
    obtain ⟨n, t⟩ := hd
    simp only [List.map_cons, List.mem_cons] at hf
    push_neg at hf
    obtain ⟨hfn, hfr⟩ := hf
    by_cases hn : n = p
    · subst hn
      have hpf : ¬(n = f) := fun h => hfn h.symm
      simp [lookupField, hpf]
    · simp only [List.cons_append, lookupField, if_neg hn]
      exact ih hfr

/-- A type that is not a pointer is unchanged by `unwrapPointer`. -/
theorem unwrapPointer_of_not_pointer (t : GoType) (h : ∀ u, t ≠ GoType.pointer u) :
    unwrapPointer t = t := by
  cases t with
  | pointer e => exact absurd rfl (h e)
  | basic n => rfl
  | named n u => rfl
  | slice e => rfl
  | structT fs => rfl

/-- C4 amended: one pointer indirection is transparent at every segment
(for a field whose unwrapped type is not itself a pointer), but a slice
is never unwrapped: at a non-final segment a slice-typed field always
fails with `"<prefix> is not a named struct"`. -/
theorem C4_amended_wrapping :
    (∀ structName fsA fsB f t seen parts,
      (∀ u, t ≠ GoType.pointer u) → f ∉ fsA.map Prod.fst →
      walkPath structName (fsA ++ (f, GoType.pointer t) :: fsB) seen parts =
        walkPath structName (fsA ++ (f, t) :: fsB) seen parts)
    ∧ (∀ structName fields seen part next rest t,
        lookupField fields part = some (GoType.slice t) →
        walkPath structName fields seen (part :: next :: rest) =
          joinDot (seen ++ [part]) ++ " is not a named struct") := by
  constructor
  · intro structName fsA fsB f t seen parts ht hf
    cases parts with
    | nil => rfl
    | cons p rest =>
      by_cases hp : p = f
      · subst hp
        simp [walkPath, lookupField_mid fsA fsB p (GoType.pointer t) p hf,
          lookupField_mid fsA fsB p t p hf, unwrapPointer,
          unwrapPointer_of_not_pointer t ht]
      · simp only [walkPath, lookupField_mid fsA fsB f (GoType.pointer t) p hf,
          lookupField_mid fsA fsB f t p hf, if_neg hp]
  · intro structName fields seen part next rest t h
    simp [walkPath, h, unwrapPointer]

/-- Witness for C4 amended: pointer-to-`Profile` versus plain `Profile`
and slice-of-`Profile` at a non-final segment. -/
theorem C4_amended_wrapping_witness :
    walkPath "Team" [("Members", .pointer ProfileTy)] [] ["Members", "Address"] =
      walkPath "Team" [("Members", ProfileTy)] [] ["Members", "Address"] ∧
    walkPath "Team" [("Members", .slice ProfileTy)] [] ["Members", "Address"] =
      joinDot ([] ++ ["Members"]) ++ " is not a named struct" := by
  constructor
  · exact C4_amended_wrapping.1 "Team" [] [] "Members" ProfileTy [] ["Members", "Address"]
      (fun u h => by rw [ProfileTy] at h; exact GoType.noConfusion h) (by simp)
  · exact C4_amended_wrapping.2 "Team" [("Members", .slice ProfileTy)] [] "Members"
      "Address" [] ProfileTy rfl

/-- A concatenation with a nonempty right part is nonempty. -/
theorem emb_append_ne_empty_right (a b : String) (hb : b ≠ "") : a ++ b ≠ "" := by
  cases a with
  | mk la =>
    cases b with
    | mk lb =>
      intro h
      apply hb
      have hd : la ++ lb = [] := congrArg String.data h
      have : lb = [] := (List.append_eq_nil.mp hd).2
      simp [this]

/-- A concatenation with a nonempty left part is nonempty. -/
theorem emb_append_ne_empty_left (a b : String) (ha : a ≠ "") : a ++ b ≠ "" := by
  cases a with
  | mk la =>
    cases b with
    | mk lb =>
      intro h
      apply ha
      have hd : la ++ lb = [] := congrArg String.data h
      have : la = [] := (List.append_eq_nil.mp hd).1
      simp [this]

/-- Every failure string of the segment loop is nonempty, so a
successful walk never took a failing branch: taking a prefix of an
accepted path keeps the walk accepted. -/
theorem walkPath_take :
    ∀ (parts : List String) structName fields seen (i : Nat),
      walkPath structName fields seen parts = "" →
      walkPath structName fields seen (parts.take i) = "" := by
  intro parts
  induction parts with
  | nil =>
    intro structName fields seen i h
    simp [walkPath]
  | cons p rest ih =>
    intro structName fields seen i h
    cases i with
    | zero => simp [walkPath]
    | succ j =>
      simp only [List.take_succ_cons]
      cases hl : lookupField fields p with
      | none =>
        simp only [walkPath, hl] at h
        exact absurd h (emb_append_ne_empty_left _ _
          (emb_append_ne_empty_right _ _ (by decide)))
      | some ft =>
        cases rest with
        | nil =>
          cases j <;> simp [walkPath, hl]
        | cons q rs =>
          simp only [walkPath, hl] at h
          cases j with
          | zero => simp [walkPath, hl]
          | succ k =>
            simp only [List.take_succ_cons, walkPath, hl]
            cases hu : unwrapPointer ft with
            | named n u =>
              simp only [hu] at h ⊢
              cases u with
              | structT fs => exact ih n fs (seen ++ [p]) (k + 1) h
              | basic bn =>
                exact absurd h (emb_append_ne_empty_right _ _ (by decide))
              | named n2 u2 =>
                exact absurd h (emb_append_ne_empty_right _ _ (by decide))
              | pointer e =>
                exact absurd h (emb_append_ne_empty_right _ _ (by decide))
              | slice e =>
                exact absurd h (emb_append_ne_empty_right _ _ (by decide))
            | basic bn =>
              simp only [hu] at h
              exact absurd h (emb_append_ne_empty_right _ _ (by decide))
            | pointer e =>
              simp only [hu] at h
              exact absurd h (emb_append_ne_empty_right _ _ (by decide))
            | slice e =>
              simp only [hu] at h
              exact absurd h (emb_append_ne_empty_right _ _ (by decide))
            | structT fs =>
              simp only [hu] at h
              exact absurd h (emb_append_ne_empty_right _ _ (by decide))

/-- C5: monotonic prefix validity — a path accepted by the validator
has every prefix accepted as well (the walk over the prefix reaches the
same intermediate structs and stops early at its own last segment). -/
theorem C5_prefix_validity :
    ∀ (parts : List String) (t : GoType) (i : Nat),
      checkPreloadPath t parts = "" → checkPreloadPath t (parts.take i) = "" := by
  intro parts t i h
  cases t with
  | named n u =>
    cases u with
    | structT fs =>
      rw [checkPreloadPath] at h ⊢
      exact walkPath_take parts n fs [] i h
    | basic bn =>
      simp only [checkPreloadPath] at h
      exact absurd h (emb_append_ne_empty_right _ _ (by decide))
    | named n2 u2 =>
      simp only [checkPreloadPath] at h
      exact absurd h (emb_append_ne_empty_right _ _ (by decide))
    | pointer e =>
      simp only [checkPreloadPath] at h
      exact absurd h (emb_append_ne_empty_right _ _ (by decide))
    | slice e =>
      simp only [checkPreloadPath] at h
      exact absurd h (emb_append_ne_empty_right _ _ (by decide))
  | basic bn =>
    simp only [checkPreloadPath] at h
    exact absurd h (by decide)
  | pointer e =>
    simp only [checkPreloadPath] at h
    exact absurd h (by decide)
  | slice e =>
    simp only [checkPreloadPath] at h
    exact absurd h (by decide)
  | structT fs =>
    simp only [checkPreloadPath] at h
    exact absurd h (by decide)

/-- Witness for C5 at the valid three-segment testdata path. -/
theorem C5_prefix_validity_witness :
    checkPreloadPath OrderTy ["User", "Profile", "Address"] = "" ∧
    checkPreloadPath OrderTy (["User", "Profile", "Address"].take 2) = "" :=
  ⟨rfl, C5_prefix_validity ["User", "Profile", "Address"] OrderTy 2 rfl⟩

/-! ### Two independent chains in one function body

Chain A is the single fluent chain `db.Preload("User").Find(&orders)`
with `orders : []Order`; chain B is the separate statement
`db.Find(&users)` with `users : []User`. The path `User` is valid for
`Order` and invalid for `User`. -/

/-- `db.Preload("User")`, the eager-load link of chain A, at position 10. -/
def preloadX : Expr :=
  .call (.sel (.ident 10 "db") "Preload") (.cons (.litStr 21 "\"User\"") .nil)

/-- `db.Preload("User").Find(&orders)`, chain A's own materialization:
by the `go/ast` position rules it shares position 10 with `preloadX`,
and its receiver is a call expression. -/
def findX : Expr :=
  .call (.sel preloadX "Find") (.cons (.unaryAnd 40 (.ident 41 "orders")) .nil)

/-- `db.Find(&users)`, chain B, at position 100. -/
def findY : Expr :=
  .call (.sel (.ident 100 "db") "Find") (.cons (.unaryAnd 108 (.ident 109 "users")) .nil)

/-- `var orders []Order; var users []User` -/
def oracleX : List (String × GoType) := [("orders", .slice OrderTy), ("users", .slice UserTy)]

/-- The two-chain function body. -/
def fileX : List Expr := [findX, findY]

/-- C3 counterexample: contrary to the claim, the preload call of chain
A is associated with chain B's model type `User` (chain A's own `Find`
shares the preload's source position and has a call expression as
receiver, so it never matches; chain B's `Find` has the structurally
identical receiver `db`), and the analyzer reports a diagnostic against
`User` even though the path is valid for chain A's `Order`. -/
theorem C3_counterexample :
    findModelTypeForPreload preloadX (collectModelTypes oracleX fileX) = some UserTy ∧
    checkPreloadPath OrderTy ["User"] = "" ∧
    runAnalyzer oracleX fileX = [⟨10, "invalid preload: User not found in User"⟩] :=
  ⟨rfl, rfl, rfl⟩

/-- With a nonpositive best distance the fallback loop never adopts a
candidate: every real distance is at least 1. -/
theorem findClosestModelAux_stuck (preloadPos : Nat) :
    ∀ (l : List (Expr × GoType)) (best : Option GoType) (d : Int),
      d ≤ 0 → findClosestModelAux preloadPos l best d = best := by
  intro l
  induction l with
  | nil => intro best d hd; rfl
  | cons e rest ih =>
    intro best d hd
    obtain ⟨fc, t⟩ := e
    by_cases hgt : fc.pos > preloadPos
    · have hc : ¬((fc.pos : Int) - (preloadPos : Int) < 20 ∧
          (fc.pos : Int) - (preloadPos : Int) < d) := by
        intro hco
        have h1 : (preloadPos : Int) < (fc.pos : Int) := by exact_mod_cast hgt
        omega
      simp only [findClosestModelAux, if_pos hgt, if_neg hc]
      exact ih best d hd
    · simp only [findClosestModelAux, if_neg hgt]
      exact ih best d hd

/-- The nearest-following fallback is inert: its best-distance sentinel
is `^token.Pos(0) = -1`, which no positive distance is below. -/
theorem findClosestModel_none (preloadCall : Expr) (modelTypes : List (Expr × GoType)) :
    findClosestModel preloadCall modelTypes = none :=
  findClosestModelAux_stuck preloadCall.pos modelTypes none (-1) (by norm_num)

/-- A found element of `List.findSome?` comes from some list member. -/
theorem emb_findSome_mem {α β : Type} (f : α → Option β) :
    ∀ (l : List α) (b : β), l.findSome? f = some b → ∃ a ∈ l, f a = some b := by
  intro l
  induction l with
  | nil => intro b h; simp [List.findSome?] at h
  | cons x xs ih =>
    intro b h
    rw [List.findSome?] at h
    cases hf : f x with
    | some c =>
      simp only [hf] at h
      exact ⟨x, by simp, by rw [hf, h]⟩
    | none =>
      simp only [hf] at h
      obtain ⟨a, ha, hfa⟩ := ih b h
      exact ⟨a, by simp [ha], hfa⟩

/-- C3 amended: an association, when it exists, always comes from the
same-chain rule — some recorded `Find` call strictly after the preload
call, within 1000 position units, whose receiver expression is
structurally identical to the preload's receiver (regardless of which
chain it belongs to); the nearest-following fallback never produces an
association because its initial best distance is the sentinel -1. -/
theorem C3_amended_association :
    ∀ preloadCall receiver sname args modelTypes,
      preloadCall = Expr.call (.sel receiver sname) args →
      (∀ t, findModelTypeForPreload preloadCall modelTypes = some t →
        ∃ fc fx fn fargs,
          (fc, t) ∈ modelTypes ∧ fc = Expr.call (.sel fx fn) fargs ∧
          fc.pos > preloadCall.pos ∧ sameReceiver receiver fx = true ∧
          fc.pos - preloadCall.pos < 1000)
      ∧ findClosestModel preloadCall modelTypes = none := by
  intro preloadCall receiver sname args modelTypes hpc
  refine ⟨?_, findClosestModel_none preloadCall modelTypes⟩
  intro t ht
  rw [findModelTypeForPreload] at ht
  cases hsc : findModelInSameChain preloadCall modelTypes with
  | none =>
    rw [hsc, findClosestModel_none preloadCall modelTypes] at ht
    exact absurd ht (by simp)
  | some t2 =>
    rw [hsc] at ht
    have ht2 : t2 = t := by
      have := ht
      simp only [Option.some_inj] at this
      exact this
    subst ht2
    subst hpc
    rw [findModelInSameChain] at hsc
    obtain ⟨entry, hmem, hstep⟩ := emb_findSome_mem _ modelTypes t2 hsc
    obtain ⟨fc, tc⟩ := entry
    rw [sameChainStep] at hstep
    by_cases hgt : fc.pos > (Expr.call (.sel receiver sname) args).pos
    · rw [if_pos hgt] at hstep
      cases hfc : fc with
      | call ffn fargs2 =>
        cases hffn : ffn with
        | sel fx fn =>
          subst hfc; subst hffn
          simp only at hstep
          by_cases hsr : sameReceiver receiver fx
          · rw [if_pos hsr] at hstep
            by_cases hdist : (Expr.call (.sel fx fn) fargs2).pos -
                (Expr.call (.sel receiver sname) args).pos < 1000
            · rw [if_pos hdist] at hstep
              have htc : tc = t2 := by
                simpa using hstep
              subst htc
              exact ⟨Expr.call (.sel fx fn) fargs2, fx, fn, fargs2, hmem, rfl, hgt, hsr, hdist⟩
            · rw [if_neg hdist] at hstep
              exact absurd hstep (by simp)
          · rw [if_neg hsr] at hstep
            exact absurd hstep (by simp)
        | ident q nm => subst hfc; subst hffn; simp at hstep
        | call f2 a2 => subst hfc; subst hffn; simp at hstep
        | unaryAnd q x2 => subst hfc; subst hffn; simp at hstep
        | litStr q v2 => subst hfc; subst hffn; simp at hstep
        | litOther q => subst hfc; subst hffn; simp at hstep
      | ident q nm => subst hfc; simp at hstep
      | sel x2 nm => subst hfc; simp at hstep
      | unaryAnd q x2 => subst hfc; simp at hstep
      | litStr q v2 => subst hfc; simp at hstep
      | litOther q => subst hfc; simp at hstep
    · rw [if_neg hgt] at hstep
      exact absurd hstep (by simp)

/-- Witness for C3 amended at the two-chain scenario: the association
of chain A's preload indeed comes from a structurally identical
receiver (`db`) — chain B's `Find` — and the fallback yields nothing. -/
theorem C3_amended_association_witness :
    (∃ fc fx fn fargs,
      (fc, UserTy) ∈ collectModelTypes oracleX fileX ∧
      fc = Expr.call (.sel fx fn) fargs ∧
      fc.pos > preloadX.pos ∧ sameReceiver (.ident 10 "db") fx = true ∧
      fc.pos - preloadX.pos < 1000) ∧
    findClosestModel preloadX (collectModelTypes oracleX fileX) = none := by
  have h := C3_amended_association preloadX (.ident 10 "db") "Preload"
    (.cons (.litStr 21 "\"User\"") .nil) (collectModelTypes oracleX fileX) rfl
  exact ⟨h.1 UserTy rfl, h.2⟩

/-- C8: a `Preload` call site with a string-literal argument produces a
diagnostic exactly when a model type was associated and the path walk
over it fails; the diagnostic carries the message `"invalid preload: "`
followed by the validator's failure description and is bound to the
preload call's own source position; with no association the site is
silently skipped. -/
theorem C8_diagnostic_iff :
    ∀ modelTypes rcv lp v rest,
      (processPreloadCall modelTypes
          (.call (.sel rcv "Preload") (.cons (.litStr lp v) rest)) = none ↔
        (findModelTypeForPreload
            (.call (.sel rcv "Preload") (.cons (.litStr lp v) rest)) modelTypes = none ∨
          ∃ t, findModelTypeForPreload
              (.call (.sel rcv "Preload") (.cons (.litStr lp v) rest)) modelTypes = some t ∧
            checkPreloadPath t (splitDot (trimQuotes v)) = ""))
      ∧ (∀ t, findModelTypeForPreload
            (.call (.sel rcv "Preload") (.cons (.litStr lp v) rest)) modelTypes = some t →
          checkPreloadPath t (splitDot (trimQuotes v)) ≠ "" →
          processPreloadCall modelTypes
              (.call (.sel rcv "Preload") (.cons (.litStr lp v) rest)) =
            some ⟨(Expr.call (.sel rcv "Preload") (.cons (.litStr lp v) rest)).pos,
              "invalid preload: " ++ checkPreloadPath t (splitDot (trimQuotes v))⟩) := by
  intro modelTypes rcv lp v rest
  constructor
  · cases hm : findModelTypeForPreload
        (.call (.sel rcv "Preload") (.cons (.litStr lp v) rest)) modelTypes with
    | none =>
      simp only [processPreloadCall, hm]
      simp
    | some t =>
      simp only [processPreloadCall, hm]
      by_cases he : checkPreloadPath t (splitDot (trimQuotes v)) = ""
      · simp [he]
      · simp [he]
  · intro t hm hne
    simp only [processPreloadCall, hm]
    simp [hne]

/-- Witness for C8 at the typo scenario: the associated type is
`Order`, the walk fails, and the diagnostic is reported at the preload
call's position with the `invalid preload: ` message. -/
theorem C8_diagnostic_iff_witness :
    findModelTypeForPreload preloadS2 (collectModelTypes oracleS fileS2) = some OrderTy ∧
    checkPreloadPath OrderTy (splitDot (trimQuotes "\"User.Profil.Address\"")) ≠ "" ∧
    processPreloadCall (collectModelTypes oracleS fileS2) preloadS2 =
      some ⟨preloadS2.pos, "invalid preload: " ++
        checkPreloadPath OrderTy (splitDot (trimQuotes "\"User.Profil.Address\""))⟩ :=
  ⟨rfl, by decide,
    (C8_diagnostic_iff (collectModelTypes oracleS fileS2) (.ident 10 "db") 21
      "\"User.Profil.Address\"" .nil).2 OrderTy rfl (by decide)⟩
